import Mathlib

/-!
Shallow embedding of the robot-monitoring dashboard frontend (src/src/App.js)
and proofs of its specification's claims.

The component `App` holds two state cells (`robots`, `filter`), fetches an
initial snapshot, maintains a WebSocket with a 5-second reconnect timer, and
derives a filtered list rendered as map markers and table rows. All of that is
embedded below: JavaScript values that can be malformed (the `location` field)
are modelled by `JSVal`; property accesses and method calls that can throw a
TypeError return `Option` (with `none` for the thrown fault); the
WebSocket/timer life cycle is modelled as a step function on an explicit
event-loop state, one constructor per handler registered in the source.
-/

namespace RobotDashboard

/-- JavaScript runtime values, as far as this component inspects them.
The `location` field of a robot record may be null, a number, a string, or an
array of arbitrary values; `undefined` arises from out-of-range indexing. -/
inductive JSVal where
  | null
  | undefined
  | num (n : Int)
  | str (s : String)
  | arr (xs : List JSVal)


/-- Result of the JavaScript `typeof` operator on a `JSVal`. -/
def jsTypeof : JSVal → String
  | JSVal.null => "object"
  | JSVal.undefined => "undefined"
  | JSVal.num _ => "number"
  | JSVal.str _ => "string"
  | JSVal.arr _ => "object"

/-- Indexing `v[i]` in JavaScript: reading a property of `null` or `undefined`
throws a TypeError (`none`); indexing a number gives `undefined`; indexing a
string gives the one-character string or `undefined` out of range; indexing an
array gives the element or `undefined` out of range. -/
def jsIndex : JSVal → Nat → Option JSVal
  | JSVal.null, _ => none
  | JSVal.undefined, _ => none
  | JSVal.num _, _ => some JSVal.undefined
  | JSVal.str s, i =>
      some (if i < s.length then JSVal.str ((s.drop i).take 1) else JSVal.undefined)
  | JSVal.arr xs, i => some ((xs.get? i).getD JSVal.undefined)

/-- Calling `v.toFixed(2)`: only numbers have the `toFixed` method, every
other receiver throws a TypeError (`none`). Numbers in this embedding are
integers, so the two-decimal rendering is the integer followed by ".00". -/
def jsToFixed2 : JSVal → Option String
  | JSVal.num n => some (toString n ++ ".00")
  | _ => none

/-- Robot record as received from the backend (spec § 3). `battery`, `cpu`
and `ram` are numeric and used as numbers by the component; `location` is
kept as a raw `JSVal` because the source treats it defensively. -/
structure Robot where
  id : String
  status : String
  battery : Int
  cpu : Int
  ram : Int
  location : JSVal
  last_updated : String


/-- Filter predicate of `filteredRobots` in App.js lines 60-67, one branch
per `if` in source order, with the final `return true` fallback. -/
def filterPred (filter : String) (robot : Robot) : Bool :=
  if filter == "all" then true
  else if filter == "online" then robot.status == "Online"
  else if filter == "offline" then robot.status == "Offline"
  else if filter == "low-battery" then decide (robot.battery < 20)
  else true

/-- Derived list `filteredRobots = robots.filter(...)` (App.js line 60). -/
def filteredRobots (robots : List Robot) (filter : String) : List Robot :=
  robots.filter (filterPred filter)

/-- Marker/row colour function `getStatusColor` (App.js lines 70-74). -/
def getStatusColor (status : String) (battery : Int) : String :=
  if status == "Offline" then "red"
  else if battery < 20 then "orange"
  else "green"

/-- Per-robot location validity gate guarding map rendering (App.js lines
101-106): `Array.isArray(robot.location) && robot.location.length === 2 &&
typeof robot.location[0] === "number" && typeof robot.location[1] ===
"number"`. Indexing is safe here because the array check comes first. -/
def isValidLocation (v : JSVal) : Bool :=
  match v with
  | JSVal.arr xs =>
      xs.length == 2 &&
      jsTypeof ((xs.get? 0).getD JSVal.undefined) == "number" &&
      jsTypeof ((xs.get? 1).getD JSVal.undefined) == "number"
  | _ => false

/-- Leaflet marker produced for a robot on the map (App.js lines 108-126):
position, the colour passed to `createCustomIcon`, and the popup key. -/
structure Marker where
  position : JSVal
  color : String
  popupId : String


/-- Map rendering of one filtered robot (App.js lines 100-129): a `Marker`
when the location gate passes, otherwise `null` (no marker). -/
def mapMarker (robot : Robot) : Option Marker :=
  if isValidLocation robot.location then
    some { position := robot.location
           color := getStatusColor robot.status robot.battery
           popupId := robot.id }
  else none

/-- The map layer: one (possibly null) marker per element of the derived
list, exactly as `filteredRobots.map(...)` inside the MapContainer. -/
def renderMapMarkers (robots : List Robot) (filter : String) : List (Option Marker) :=
  (filteredRobots robots filter).map mapMarker

/-- Rendering of the coordinate cell of a table row (App.js line 171):
`robot.location[0].toFixed(2) + ", " + robot.location[1].toFixed(2)`, with
`none` when any access or call throws. -/
def renderLocationCell (robot : Robot) : Option String :=
  (jsIndex robot.location 0).bind fun v0 =>
  (jsToFixed2 v0).bind fun s0 =>
  (jsIndex robot.location 1).bind fun v1 =>
  (jsToFixed2 v1).bind fun s1 =>
  some (s0 ++ ", " ++ s1)

/-- Data of one rendered table row (App.js lines 147-173): the row and dot
background colours and the textual cells. -/
structure TableRow where
  backgroundColor : String
  dotColor : String
  idCell : String
  batteryCell : String
  cpuCell : String
  ramCell : String
  lastUpdatedCell : String
  locationCell : String


/-- Rendering `new Date(robot.last_updated).toLocaleString()` (App.js line
169). `Date` construction and `toLocaleString` never throw in JavaScript (an
unparsable string renders as "Invalid Date"), so this is a total function;
the exact text is locale display detail irrelevant to every claim, and the
serialized timestamp is kept as the representative. -/
def dateToLocaleString (s : String) : String := s

/-- Table rendering of one filtered robot (App.js lines 146-174). The only
sub-expression that can throw is the coordinate cell; a throw there aborts
the row (`none`). -/
def renderTableRow (robot : Robot) : Option TableRow :=
  (renderLocationCell robot).map fun loc =>
       { backgroundColor := getStatusColor robot.status robot.battery
         dotColor := getStatusColor robot.status robot.battery
         idCell := robot.id
         batteryCell := toString robot.battery ++ "%"
         cpuCell := toString robot.cpu ++ "%"
         ramCell := toString robot.ram
         lastUpdatedCell := dateToLocaleString robot.last_updated
         locationCell := loc }

/-- The table body: one (possibly faulting) row per element of the derived
list, exactly as `filteredRobots.map(...)` inside the tbody. -/
def renderTableRows (robots : List Robot) (filter : String) : List (Option TableRow) :=
  (filteredRobots robots filter).map renderTableRow

/-!
Snapshot Loader (`fetchRobots`, App.js lines 13-26). The single fetch either
resolves with a 2xx body, resolves non-ok (the code then throws and catches
an `Error`), or rejects with a transport error; the `catch` block logs to
`console.error` and raises one `alert`, and never touches `robots`.
-/

/-- Outcome of the one `fetch` call issued by `fetchRobots`. -/
inductive FetchOutcome where
  | ok (data : List Robot)
  | httpError (statusText : String)
  | transportError (message : String)

/-- Whether the fetch outcome takes the `catch` path of `fetchRobots`. -/
def FetchOutcome.isFailure : FetchOutcome → Bool
  | FetchOutcome.ok _ => false
  | FetchOutcome.httpError _ => true
  | FetchOutcome.transportError _ => true

/-- Observable result of running `fetchRobots` once: the robots state after
the call (given the prior state), the number of `fetch` requests issued, and
the counts of `alert` dialogs and `console.error` log entries. -/
structure FetchResult where
  robots : List Robot
  fetchAttempts : Nat
  alerts : Nat
  consoleErrors : Nat

/-- Model of `fetchRobots` (App.js lines 14-24): one `fetch`; on success
`setRobots(data)`; on failure `console.error` then `alert`, with no retry and
no state change. -/
def fetchRobots (prior : List Robot) : FetchOutcome → FetchResult
  | FetchOutcome.ok data =>
      { robots := data, fetchAttempts := 1, alerts := 0, consoleErrors := 0 }
  | FetchOutcome.httpError _ =>
      { robots := prior, fetchAttempts := 1, alerts := 1, consoleErrors := 1 }
  | FetchOutcome.transportError _ =>
      { robots := prior, fetchAttempts := 1, alerts := 1, consoleErrors := 1 }

/-!
Update Channel (App.js lines 29-57). The WebSocket effect is modelled as a
step function over an explicit event-loop state. Handlers registered in
`connectWebSocket` become event constructors; `setTimeout(connectWebSocket,
5000)` appends a timer carrying its delay to a FIFO pending list; firing a
pending timer runs `connectWebSocket`, creating a brand-new socket. The
effect cleanup (lines 54-56) runs `if (socket) socket.close();` and nothing
else — in particular it holds no timer handle and clears no timer, which the
step function reproduces faithfully.
-/

/-- Event-loop state owned by the WebSocket effect: the `robots` state cell,
how many WebSocket objects have been constructed, the FIFO list of pending
reconnect-timer delays (ms), whether the `socket` variable is set, whether
the view has been unmounted, and how many times `socket.close()` was called
by the cleanup, plus the `alert` count raised by `onerror`. -/
structure WSState where
  robots : List Robot
  connectionsCreated : Nat
  pendingTimers : List Nat
  hasSocket : Bool
  tornDown : Bool
  closeCalls : Nat
  alerts : Nat

/-- Body of `connectWebSocket` (App.js lines 32-50): construct a new
WebSocket, assign it to `socket`, and (re)install the three handlers. -/
def connectWebSocket (s : WSState) : WSState :=
  { s with connectionsCreated := s.connectionsCreated + 1, hasSocket := true }

/-- Events the browser event loop can deliver to this effect. `message`
carries the already-parsed payload (`JSON.parse(event.data)`); parsing of a
malformed payload is the spec's open question and out of scope here. -/
inductive WSEvent where
  | message (data : List Robot)
  | socketError
  | socketClose
  | timerFire
  | teardown

/-- One event-loop step, handler for handler from App.js:
`onmessage` (35-38) replaces `robots` wholesale; `onerror` (40-44) alerts and
schedules a 5000 ms reconnect; `onclose` (46-49) schedules a 5000 ms
reconnect; a firing timer runs `connectWebSocket`; the unmount cleanup
(54-56) closes the socket if one exists and cancels nothing. No handler
consults a retry counter or the mount flag. -/
def step (s : WSState) : WSEvent → WSState
  | WSEvent.message data => { s with robots := data }
  | WSEvent.socketError =>
      { s with alerts := s.alerts + 1, pendingTimers := s.pendingTimers ++ [5000] }
  | WSEvent.socketClose =>
      { s with pendingTimers := s.pendingTimers ++ [5000] }
  | WSEvent.timerFire =>
      match s.pendingTimers with
      | [] => s
      | _ :: rest => connectWebSocket { s with pendingTimers := rest }
  | WSEvent.teardown =>
      { s with tornDown := true
               closeCalls := if s.hasSocket then s.closeCalls + 1 else s.closeCalls }

/-- Left fold of `step` over a list of events. -/
def runEvents (s : WSState) : List WSEvent → WSState
  | [] => s
  | e :: es => runEvents (step s e) es

/-- State right after the effect body runs (App.js line 52): empty fleet, one
`connectWebSocket()` call already performed. -/
def initialWSState : WSState :=
  connectWebSocket
    { robots := [], connectionsCreated := 0, pendingTimers := [], hasSocket := false,
      tornDown := false, closeCalls := 0, alerts := 0 }

/-- A close event followed by its timer firing, repeated `n` times: the
indefinite reconnect loop of the source. -/
def closeFireCycle : Nat → List WSEvent
  | 0 => []
  | n + 1 => WSEvent.socketClose :: WSEvent.timerFire :: closeFireCycle n

/-!
Concrete robot records used to instantiate the theorems below.
-/

/-- Sample online robot with a well-formed location. -/
def robotA : Robot :=
  { id := "r1", status := "Online", battery := 15, cpu := 10, ram := 256,
    location := JSVal.arr [JSVal.num 1, JSVal.num 2], last_updated := "2024-01-01" }

/-- Sample offline robot with a well-formed location, id disjoint from
`robotA`. -/
def robotB : Robot :=
  { id := "r2", status := "Offline", battery := 80, cpu := 5, ram := 128,
    location := JSVal.arr [JSVal.num 3, JSVal.num 4], last_updated := "2024-01-02" }

/-- Sample robot whose `location` is `null`. -/
def robotBadNull : Robot :=
  { id := "r3", status := "Online", battery := 50, cpu := 1, ram := 64,
    location := JSVal.null, last_updated := "2024-01-03" }

/-!
Helper lemmas shared by the claim theorems.
-/

/-- Firing a pending timer pops the FIFO head and runs `connectWebSocket`,
whatever the rest of the state (no handler consults `tornDown`). -/
theorem timerFire_pop (s : WSState) (h : s.pendingTimers ≠ []) :
    (step s WSEvent.timerFire).connectionsCreated = s.connectionsCreated + 1 ∧
    (step s WSEvent.timerFire).pendingTimers = s.pendingTimers.tail ∧
    (step s WSEvent.timerFire).tornDown = s.tornDown := by
  cases hp : s.pendingTimers with
  | nil => exact absurd hp h
  | cons a rest =>
      simp only [step, hp, connectWebSocket]
      exact ⟨trivial, rfl, trivial⟩

/-- The map location gate accepts exactly the two-element all-numeric
arrays. -/
theorem isValidLocation_iff (v : JSVal) :
    isValidLocation v = true ↔
      ∃ a b : Int, v = JSVal.arr [JSVal.num a, JSVal.num b] := by
  cases v with
  | null => simp [isValidLocation]
  | undefined => simp [isValidLocation]
  | num n => simp [isValidLocation]
  | str s => simp [isValidLocation]
  | arr xs =>
      match xs with
      | [] => simp [isValidLocation]
      | [x] => simp [isValidLocation]
      | [x, y] => cases x <;> cases y <;> simp [isValidLocation, jsTypeof]
      | x :: y :: z :: rest => simp [isValidLocation]

/-!
Claim theorems.
-/

/-- Claim C4: for every FleetState list and every robot in it, the
Presentation Filter keeps the robot iff: mode "all" always; mode "online"
iff the status string equals "Online" exactly; mode "offline" iff it equals
"Offline" exactly; mode "low-battery" iff battery is strictly below 20
regardless of status; and any mode outside these four keeps every robot. -/
theorem filter_mode_semantics (robots : List Robot) (mode : String) (r : Robot)
    (h : r ∈ robots) :
    r ∈ filteredRobots robots mode ↔
      (mode = "all" ∨
       (mode = "online" ∧ r.status = "Online") ∨
       (mode = "offline" ∧ r.status = "Offline") ∨
       (mode = "low-battery" ∧ r.battery < 20) ∨
       (mode ≠ "all" ∧ mode ≠ "online" ∧ mode ≠ "offline" ∧ mode ≠ "low-battery")) := by
  unfold filteredRobots filterPred
  rw [List.mem_filter]
  by_cases h1 : mode = "all" <;> by_cases h2 : mode = "online" <;>
    by_cases h3 : mode = "offline" <;> by_cases h4 : mode = "low-battery" <;>
    simp_all [beq_iff_eq]

/-- Witness for C4: the sample online robot is kept by mode "online". -/
theorem filter_mode_semantics_witness :
    robotA ∈ filteredRobots [robotA] "online" :=
  (filter_mode_semantics [robotA] "online" robotA (List.mem_singleton.mpr rfl)).mpr
    (Or.inr (Or.inl ⟨rfl, rfl⟩))

/-- Claim C5: `getStatusColor` checks status "Offline" (red) before the
battery-below-20 check (orange), then falls through to green, so an Offline
robot is red for every battery value; and the same function supplies the
colour of map markers and of table rows (background and status dot). -/
theorem color_precedence (status : String) (battery : Int) :
    (status = "Offline" → getStatusColor status battery = "red") ∧
    (status ≠ "Offline" → battery < 20 → getStatusColor status battery = "orange") ∧
    (status ≠ "Offline" → ¬ battery < 20 → getStatusColor status battery = "green") ∧
    getStatusColor "Offline" battery = "red" ∧
    (∀ r : Robot, ∀ m : Marker, mapMarker r = some m →
        m.color = getStatusColor r.status r.battery) ∧
    (∀ r : Robot, ∀ row : TableRow, renderTableRow r = some row →
        row.backgroundColor = getStatusColor r.status r.battery ∧
        row.dotColor = getStatusColor r.status r.battery) := by
  refine ⟨?_, ?_, ?_, ?_, ?_, ?_⟩
  · intro hs; simp [getStatusColor, hs]
  · intro hs hb; simp [getStatusColor, hs, hb]
  · intro hs hb; simp [getStatusColor, hs, hb]
  · simp [getStatusColor]
  · intro r m hm
    unfold mapMarker at hm
    split at hm
    · cases hm; rfl
    · cases hm
  · intro r row hrow
    unfold renderTableRow at hrow
    cases hl : renderLocationCell r with
    | none => rw [hl] at hrow; cases hrow
    | some loc => rw [hl] at hrow; cases hrow; exact ⟨rfl, rfl⟩

/-- Witness for C5: an Offline robot with battery 5 is red, never orange. -/
theorem color_precedence_witness :
    getStatusColor "Offline" 5 = "red" :=
  (color_precedence "Offline" 5).1 rfl

/-- Claim C8: the derived list is never longer than the fleet, and the table
body holds exactly one row entry per element of the derived list. -/
theorem filtered_count_le (robots : List Robot) (mode : String) :
    (filteredRobots robots mode).length ≤ robots.length ∧
    (renderTableRows robots mode).length = (filteredRobots robots mode).length :=
  ⟨List.length_filter_le _ _, List.length_map _ _⟩

/-- Claim C9: the derived list is a pure function of (FleetState,
FilterMode): recomputation yields the same list, filtering its own output
with the same mode returns it unchanged, and the derivation only selects
from the input (a sublist), mutating nothing. -/
theorem filter_idempotent (robots : List Robot) (mode : String) :
    filteredRobots robots mode = filteredRobots robots mode ∧
    filteredRobots (filteredRobots robots mode) mode = filteredRobots robots mode ∧
    List.Sublist (filteredRobots robots mode) robots := by
  refine ⟨rfl, ?_, List.filter_sublist _⟩
  simp [filteredRobots, List.filter_filter]

/-- Counterexample to claim C6 as stated: the robot with `location: null`
passes the "all" filter and is omitted from the map, but its table row does
NOT render without fault — the coordinate cell `location[0].toFixed(2)`
throws, so the row rendering aborts (`none`). -/
theorem table_row_fault_counterexample :
    robotBadNull ∈ filteredRobots [robotBadNull] "all" ∧
    mapMarker robotBadNull = none ∧
    renderTableRow robotBadNull = none := by
  refine ⟨?_, rfl, rfl⟩
  simp [filteredRobots, filterPred]

/-- Claim C6 (amended): a filtered robot is plotted on the map iff its
location is an array of exactly two numbers; a robot failing the gate is
silently omitted from the map while the table body still holds its row
entry, but for the malformed shapes `null`, `[1]` and `["a","b"]` the row's
two-decimal coordinate cell throws, so the row rendering does not complete. -/
theorem location_gate (robots : List Robot) (mode : String) (r : Robot)
    (h : r ∈ filteredRobots robots mode) :
    ((mapMarker r).isSome = true ↔
        ∃ a b : Int, r.location = JSVal.arr [JSVal.num a, JSVal.num b]) ∧
    renderTableRow r ∈ renderTableRows robots mode ∧
    ((r.location = JSVal.null ∨
      r.location = JSVal.arr [JSVal.num 1] ∨
      r.location = JSVal.arr [JSVal.str "a", JSVal.str "b"]) →
        mapMarker r = none ∧ renderTableRow r = none) := by
  refine ⟨?_, List.mem_map_of_mem renderTableRow h, ?_⟩
  · rw [← isValidLocation_iff]
    unfold mapMarker
    split
    · next hv => simp [hv]
    · next hv => simp [hv]
  · intro hloc
    rcases hloc with hc | hc | hc <;>
      simp [mapMarker, renderTableRow, renderLocationCell, isValidLocation,
        jsIndex, jsToFixed2, jsTypeof, hc]

/-- Witness for C6 (amended): instantiated at the `location: null` robot
under mode "all". -/
theorem location_gate_witness :
    mapMarker robotBadNull = none ∧ renderTableRow robotBadNull = none :=
  (location_gate [robotBadNull] "all" robotBadNull
      (by simp [filteredRobots, filterPred])).2.2 (Or.inl rfl)

/-- Claim C1: processing a push message carrying robot set M installs
exactly M as the new FleetState; with M disjoint from the prior robots by
id, no prior robot survives — a wholesale replacement, no merge or per-id
patching. -/
theorem push_replaces_state (s : WSState) (m : List Robot)
    (hdisj : ∀ r1 ∈ s.robots, ∀ r2 ∈ m, r1.id ≠ r2.id) :
    (step s (WSEvent.message m)).robots = m ∧
    ∀ r ∈ s.robots, r ∉ (step s (WSEvent.message m)).robots := by
  refine ⟨rfl, ?_⟩
  intro r hr hmem
  exact hdisj r hr r hmem rfl

/-- Witness for C1: a prior fleet of `robotA` wholly replaced by a message
carrying the disjoint `robotB`. -/
theorem push_replaces_state_witness :
    (step { initialWSState with robots := [robotA] }
        (WSEvent.message [robotB])).robots = [robotB] ∧
    ∀ r ∈ ({ initialWSState with robots := [robotA] } : WSState).robots,
      r ∉ (step { initialWSState with robots := [robotA] }
        (WSEvent.message [robotB])).robots :=
  push_replaces_state { initialWSState with robots := [robotA] } [robotB]
    (by
      intro r1 hr1 r2 hr2
      rw [List.mem_singleton] at hr1 hr2
      subst hr1; subst hr2
      decide)

/-- A close/fire cycle creates exactly one new connection per iteration,
from every starting state: the reconnect loop never consults a retry
counter. -/
theorem runEvents_closeFireCycle (n : Nat) : ∀ s : WSState,
    (runEvents s (closeFireCycle n)).connectionsCreated = s.connectionsCreated + n := by
  induction n with
  | zero => intro s; rfl
  | succ n ih =>
      intro s
      show (runEvents (step (step s WSEvent.socketClose) WSEvent.timerFire)
              (closeFireCycle n)).connectionsCreated = _
      rw [ih]
      have hne : (step s WSEvent.socketClose).pendingTimers ≠ [] := by
        simp [step]
      rw [(timerFire_pop _ hne).1]
      show (s.connectionsCreated + 1) + n = s.connectionsCreated + (n + 1)
      omega

/-- Claim C3: each channel close event (view still mounted) appends exactly
one reconnect timer, carrying the constant delay 5000 ms, creating no
connection by itself; and reconnection is unbounded — `n` close/fire cycles
from any state yield `n` further connections, for every `n`. -/
theorem reconnect_policy (s : WSState) (h : s.tornDown = false) :
    (step s WSEvent.socketClose).pendingTimers = s.pendingTimers ++ [5000] ∧
    (step s WSEvent.socketClose).connectionsCreated = s.connectionsCreated ∧
    ∀ n : Nat,
      (runEvents s (closeFireCycle n)).connectionsCreated = s.connectionsCreated + n :=
  ⟨rfl, rfl, fun n => runEvents_closeFireCycle n s⟩

/-- Witness for C3: instantiated at the freshly connected state; three
cycles yield three further connections. -/
theorem reconnect_policy_witness :
    (step initialWSState WSEvent.socketClose).pendingTimers = [5000] ∧
    (runEvents initialWSState (closeFireCycle 3)).connectionsCreated = 4 :=
  ⟨(reconnect_policy initialWSState rfl).1, (reconnect_policy initialWSState rfl).2.2 3⟩

/-- Claim C10: a transport error followed by the ensuing close schedules two
independent 5000 ms reconnect timers (one from `onerror`, one from
`onclose`), and firing both creates two new connection objects, from every
starting state. -/
theorem error_then_close_double_reconnect (s : WSState) :
    (runEvents s [WSEvent.socketError, WSEvent.socketClose]).pendingTimers
      = s.pendingTimers ++ [5000, 5000] ∧
    (runEvents s [WSEvent.socketError, WSEvent.socketClose,
        WSEvent.timerFire, WSEvent.timerFire]).connectionsCreated
      = s.connectionsCreated + 2 := by
  have h2 : (runEvents s [WSEvent.socketError, WSEvent.socketClose]).pendingTimers
      = s.pendingTimers ++ [5000, 5000] := by
    show ((s.pendingTimers ++ [5000]) ++ [5000]) = _
    simp
  refine ⟨h2, ?_⟩
  have hne1 : (runEvents s [WSEvent.socketError, WSEvent.socketClose]).pendingTimers ≠ [] := by
    rw [h2]; simp
  have hpop1 := timerFire_pop _ hne1
  have hne2 : (step (runEvents s [WSEvent.socketError, WSEvent.socketClose])
      WSEvent.timerFire).pendingTimers ≠ [] := by
    rw [hpop1.2.1, h2]
    cases s.pendingTimers <;> simp
  have hpop2 := timerFire_pop _ hne2
  show (step (step (runEvents s [WSEvent.socketError, WSEvent.socketClose])
      WSEvent.timerFire) WSEvent.timerFire).connectionsCreated = _
  rw [hpop2.1, hpop1.1]
  show ((step (step s WSEvent.socketError) WSEvent.socketClose).connectionsCreated + 1) + 1 = _
  show ((s.connectionsCreated + 1) + 1) = _
  omega

/-- Claim C2 evaluated at its failing input: after a close event the 5000 ms
reconnect timer is pending; the view then unmounts (cleanup runs, `tornDown`
true, `socket.close()` called once) — yet the timer is still pending, and
when it fires a second WebSocket object is created (`connectionsCreated`
goes from 1 to 2). The cleanup holds no timer handle and clears no timer,
so the teardown contract of the spec is violated by the code. -/
theorem teardown_timer_leak :
    (runEvents initialWSState [WSEvent.socketClose, WSEvent.teardown]).tornDown = true ∧
    (runEvents initialWSState [WSEvent.socketClose, WSEvent.teardown]).closeCalls = 1 ∧
    (runEvents initialWSState [WSEvent.socketClose, WSEvent.teardown]).pendingTimers
      = [5000] ∧
    (runEvents initialWSState [WSEvent.socketClose, WSEvent.teardown]).connectionsCreated
      = 1 ∧
    (runEvents initialWSState [WSEvent.socketClose, WSEvent.teardown,
        WSEvent.timerFire]).connectionsCreated = 2 := by
  refine ⟨rfl, rfl, rfl, rfl, rfl⟩

/-- Claim C7: when the snapshot fetch fails (non-2xx or transport error),
exactly one fetch was attempted (no retry), exactly one alert is raised and
one console error logged, and the robots state is left unchanged — still
empty if nothing had arrived; moreover, starting from the empty state, only
a successful response ever makes the robots state non-empty. -/
theorem fetch_failure_no_retry (o : FetchOutcome) (h : o.isFailure = true) :
    (∀ prior : List Robot,
        (fetchRobots prior o).robots = prior ∧
        (fetchRobots prior o).fetchAttempts = 1 ∧
        (fetchRobots prior o).alerts = 1 ∧
        (fetchRobots prior o).consoleErrors = 1) ∧
    (fetchRobots [] o).robots = [] ∧
    (∀ o2 : FetchOutcome, (fetchRobots [] o2).robots ≠ [] →
        ∃ data : List Robot,
          o2 = FetchOutcome.ok data ∧ (fetchRobots [] o2).robots = data) := by
  have honly : ∀ o2 : FetchOutcome, (fetchRobots [] o2).robots ≠ [] →
      ∃ data : List Robot,
        o2 = FetchOutcome.ok data ∧ (fetchRobots [] o2).robots = data := by
    intro o2 h2
    cases o2 with
    | ok data => exact ⟨data, rfl, rfl⟩
    | httpError st => exact absurd rfl h2
    | transportError msg => exact absurd rfl h2
  cases o with
  | ok data => exact absurd h (by simp [FetchOutcome.isFailure])
  | httpError st => exact ⟨fun prior => ⟨rfl, rfl, rfl, rfl⟩, rfl, honly⟩
  | transportError msg => exact ⟨fun prior => ⟨rfl, rfl, rfl, rfl⟩, rfl, honly⟩

/-- Witness for C7: instantiated at a non-2xx response with a one-robot
prior state. -/
theorem fetch_failure_no_retry_witness :
    (fetchRobots [robotA] (FetchOutcome.httpError "Internal Server Error")).robots
      = [robotA] ∧
    (fetchRobots [robotA] (FetchOutcome.httpError "Internal Server Error")).fetchAttempts
      = 1 ∧
    (fetchRobots [robotA] (FetchOutcome.httpError "Internal Server Error")).alerts = 1 :=
  ⟨((fetch_failure_no_retry (FetchOutcome.httpError "Internal Server Error") rfl).1
      [robotA]).1,
   ((fetch_failure_no_retry (FetchOutcome.httpError "Internal Server Error") rfl).1
      [robotA]).2.1,
   ((fetch_failure_no_retry (FetchOutcome.httpError "Internal Server Error") rfl).1
      [robotA]).2.2.1⟩

end RobotDashboard
